import Mathlib

/-!
# FilterMap (google-maps-cluster-and-filter.js): a shallow embedding

The development follows `src/js/google-maps-cluster-and-filter.js`.

Modelling conventions

* A plain JavaScript object (a location record, `filter_fields`, a marker's
  `filter_data`) is the list of its own enumerable properties, in the order in
  which `for ... in` visits them.  Reading an absent property gives
  `undefined`.  Members inherited from `Object.prototype` and the key
  `__proto__` are not modelled for plain objects.
* The values stored in location records are strings, as in the format the
  source file documents; an absent field reads as `undefined`.
* `filter_options` and each of its entries are JavaScript *arrays* used as
  dictionaries.  Reading `a[k]` on an array yields a value different from
  `undefined` when `k` is `"length"` (an own property of every array), when
  `k` is an own property, or when `k` names a member inherited through the
  prototype chain.  Which names are inherited depends on the host engine, so
  that set is a parameter `proto : String → Bool` of the functions reading
  arrays; `es5Proto` is the set of an ECMAScript 5 engine.  A write through
  such a built-in member does not change `filter_options`; its effect on the
  built-in object itself is not tracked.
* `google.maps.Map`, `google.maps.Marker`, `MarkerClusterer` and jQuery are
  external; the objects they build are records of the arguments the code
  passes, `setVisible` assigns the `visible` flag and `repaint` is counted.
* `parseFloat` is not evaluated: a position keeps the argument handed to it.
* The click listener of a marker and the info window do not touch the state
  described here and are left out.
-/

namespace FilterMap

/-! ## Values and plain objects -/

/-- A value read from a location record. -/
inductive JSVal where
  | undefined
  | str (s : String)
  deriving DecidableEq, Repr

/-- Own enumerable properties of an object, in enumeration order. -/
abbrev Dict (α : Type) := List (String × α)

/-- Property read `o[k]` on a plain object holding values. -/
def objGet (o : Dict JSVal) (k : String) : JSVal :=
  match o.lookup k with
  | some v => v
  | none => JSVal.undefined

/-- Property write `o[k] = v`: replaces an own property in place, else creates it last. -/
def dictSet {α : Type} : Dict α → String → α → Dict α
  | [], k, v => [(k, v)]
  | (k', v') :: rest, k, v =>
      if k' = k then (k, v) :: rest else (k', v') :: dictSet rest k v

/-- Conversion of a value to a property key (`ToPropertyKey`). -/
def toKey : JSVal → String
  | JSVal.undefined => "undefined"
  | JSVal.str s => s

/-- Truthiness of a value (`ToBoolean`). -/
def truthy : JSVal → Bool
  | JSVal.undefined => false
  | JSVal.str s => s != ""

/-- Strict equality `v === s` of a value with a string. -/
def strictEqStr (v : JSVal) (s : String) : Bool :=
  match v with
  | JSVal.str t => t == s
  | JSVal.undefined => false

/-! ## Markers -/

/-- The number `parseFloat(arg)`; the argument is kept, the double is not computed. -/
structure ParsedFloat where
  arg : JSVal
  deriving DecidableEq, Repr

/-- A `position` literal `{lat: ..., lng: ...}`. -/
structure LatLng where
  lat : ParsedFloat
  lng : ParsedFloat
  deriving DecidableEq, Repr

/-- A `google.maps.Marker` as built by `getMarkers`. -/
structure Marker where
  position : LatLng
  filter_data : Dict JSVal
  title : JSVal
  visible : Bool
  deriving DecidableEq, Repr

/-- The call `marker.setVisible(b)`. -/
def Marker.setVisible (m : Marker) (b : Bool) : Marker :=
  { m with visible := b }

/-! ## The cluster calculator -/

/-- The `text` member of the calculator result: a number, or the empty string. -/
inductive CalcText where
  | num (n : Nat)
  | empty
  deriving DecidableEq, Repr

/-- The object the calculator returns. -/
structure CalcResult where
  text : CalcText
  index : Nat
  deriving DecidableEq, Repr

/-- The loop `for (i...) if (markers[i].visible) shown_count++`. -/
def countShown : List Marker → Nat → Nat
  | [], shown_count => shown_count
  | m :: rest, shown_count =>
      countShown rest (if m.visible then shown_count + 1 else shown_count)

/-- The loop `while (dv !== 0) { dv = parseInt(dv / 10, 10); index++; }`; yields the final
`index`.  On the non-negative integers `dv` takes here `parseInt(dv / 10, 10)` is the integer
quotient. -/
def digitLoop (dv index : Nat) : Nat :=
  if h : dv = 0 then index
  else digitLoop (dv / 10) (index + 1)
termination_by dv
decreasing_by exact Nat.div_lt_self (Nat.pos_of_ne_zero h) (by decide)

/-- The `calculator` option handed to `MarkerClusterer`. -/
def calculator (markers : List Marker) (numStyles : Nat) : CalcResult :=
  let shown_count := countShown markers 0
  if shown_count > 0 then
    let index := digitLoop shown_count 0
    { text := CalcText.num shown_count, index := min index numStyles + 1 }
  else
    { text := CalcText.empty, index := 0 }

/-! ## Arrays used as dictionaries -/

/-- The index `filter_options`: category ↦ (option value ↦ `true`), both levels arrays. -/
abbrev FilterOptions := Dict (Dict Bool)

/-- Names that read as a built-in member on every array: `"length"` and the names the array
inherits in the host engine. -/
def builtinName (proto : String → Bool) (k : String) : Bool :=
  k == "length" || proto k

/-- The names an array inherits in an ECMAScript 5 engine: the members of `Array.prototype`
and of `Object.prototype`, with the legacy accessors browsers add. -/
def es5Proto (k : String) : Bool :=
  ["constructor", "toString", "toLocaleString", "concat", "join", "pop", "push", "reverse",
    "shift", "slice", "sort", "splice", "unshift", "indexOf", "lastIndexOf", "every", "some",
    "forEach", "map", "filter", "reduce", "reduceRight", "valueOf", "hasOwnProperty",
    "isPrototypeOf", "propertyIsEnumerable", "__proto__", "__defineGetter__",
    "__defineSetter__", "__lookupGetter__", "__lookupSetter__"].contains k

/-- The test `a[k] === undefined` on an array: false for a built-in member and for an own
property. -/
def arrUndefined {α : Type} (proto : String → Bool) (a : Dict α) (k : String) : Bool :=
  !builtinName proto k && (a.lookup k).isNone

/-- The statements of the inner loop body that follow the write to `filter_data`:
```
if (filter_options[category] === undefined) filter_options[category] = [];
filter_category = filter_options[category];
if (filter_category[key] === undefined) filter_category[key] = true;
```
When `filter_options[category]` is the array length or an inherited member, the last write
does not reach `filter_options`. -/
def recordOption (proto : String → Bool) (filter_options : FilterOptions)
    (category key : String) : FilterOptions :=
  let filter_options :=
    if arrUndefined proto filter_options category then dictSet filter_options category []
    else filter_options
  if category = "length" then filter_options
  else
    match filter_options.lookup category with
    | some filter_category =>
        if arrUndefined proto filter_category key then
          dictSet filter_options category (dictSet filter_category key true)
        else filter_options
    | none => filter_options

/-- The loop `for (category in filter_fields) { ... }` for one location. -/
def categoryLoop (proto : String → Bool) (location : Dict JSVal) :
    List (String × String) → Dict JSVal → FilterOptions → Dict JSVal × FilterOptions
  | [], filter_data, filter_options => (filter_data, filter_options)
  | (category, field) :: rest, filter_data, filter_options =>
      let filter_data := dictSet filter_data category (objGet location field)
      let filter_options :=
        recordOption proto filter_options category (toKey (objGet filter_data category))
      categoryLoop proto location rest filter_data filter_options

/-- The marker `new google.maps.Marker({position, filter_data, title})`; a new marker is
visible. -/
def newMarker (location : Dict JSVal) (filter_data : Dict JSVal) : Marker :=
  { position :=
      { lat := ⟨objGet location "Latitude"⟩, lng := ⟨objGet location "Longitude"⟩ }
    filter_data := filter_data
    title := if truthy (objGet location "Name") then objGet location "Name" else JSVal.str ""
    visible := true }

/-- The loop `for (i; i < number_of_locations; i++) { ... }` of `getMarkers`, with its
variables `filter_data`, `filter_options` and `markers`. -/
def markerLoop (proto : String → Bool) (filter_fields : Option (List (String × String))) :
    List (Dict JSVal) → Dict JSVal → FilterOptions → List Marker → List Marker × FilterOptions
  | [], _, filter_options, markers => (markers, filter_options)
  | location :: rest, filter_data, filter_options, markers =>
      let step :=
        match filter_fields with
        | some fields => categoryLoop proto location fields [] filter_options
        | none => (filter_data, filter_options)
      markerLoop proto filter_fields rest step.1 step.2
        (markers ++ [newMarker location step.1])

/-- The function `getMarkers`: the marker list it returns and the index `filter_options` it
leaves.  Its local `markers` shadows the outer one, so the early return is never taken. -/
def getMarkers (proto : String → Bool) (filter_fields : Option (List (String × String)))
    (location_data : List (Dict JSVal)) (filter_options : FilterOptions) :
    List Marker × FilterOptions :=
  markerLoop proto filter_fields location_data [] filter_options []

/-! ## Key enumeration and sorting -/

/-- Decimal value of a digit character. -/
def digitOf (c : Char) : Option Nat :=
  if 48 ≤ c.toNat ∧ c.toNat ≤ 57 then some (c.toNat - 48) else none

/-- Value of a string of decimal digits. -/
def parseDigits : List Char → Nat → Option Nat
  | [], acc => some acc
  | c :: cs, acc =>
      match digitOf c with
      | some d => parseDigits cs (acc * 10 + d)
      | none => none

/-- The array index a key denotes: a canonical decimal numeral below `2^32 - 1`. -/
def arrayIndex (k : String) : Option Nat :=
  match k.data with
  | [] => none
  | c :: cs =>
      if c = '0' ∧ cs ≠ [] then none
      else
        match parseDigits (c :: cs) 0 with
        | some n => if n < 4294967295 then some n else none
        | none => none

/-- Own enumerable keys of an array in enumeration order: array indices ascending, then the
other keys in creation order.  Used by `for ... in` and `Object.keys`. -/
def ownKeys {α : Type} (a : Dict α) : List String :=
  let keys := a.map Prod.fst
  (keys.filter (fun k => (arrayIndex k).isSome)).insertionSort
      (fun x y => (arrayIndex x).getD 0 ≤ (arrayIndex y).getD 0)
    ++ keys.filter (fun k => !(arrayIndex k).isSome)

/-- UTF-16 code units of a character. -/
def charUnits (c : Char) : List Nat :=
  if c.toNat < 65536 then [c.toNat]
  else [55296 + (c.toNat - 65536) / 1024, 56320 + (c.toNat - 65536) % 1024]

/-- UTF-16 code units of a string. -/
def utf16 (s : String) : List Nat :=
  s.data.flatMap charUnits

/-- Lexicographic comparison of code-unit sequences. -/
def unitsLe : List Nat → List Nat → Bool
  | [], _ => true
  | _ :: _, [] => false
  | a :: as, b :: bs => decide (a < b) || (a == b && unitsLe as bs)

/-- The order of `Array.prototype.sort()` without comparator: by UTF-16 code units. -/
def jsLe (x y : String) : Prop :=
  unitsLe (utf16 x) (utf16 y) = true

instance : DecidableRel jsLe := fun x y =>
  inferInstanceAs (Decidable (unitsLe (utf16 x) (utf16 y) = true))

/-- The call `keys.sort()`. -/
def jsSort (keys : List String) : List String :=
  keys.insertionSort jsLe

/-! ## The widget state -/

/-- A DOM element handed to the widget. -/
structure HTMLElement where
  id : String
  deriving DecidableEq, Repr

/-- A coordinates literal such as `{lat: 52, lng: 6}`. -/
structure Coords where
  lat : Int
  lng : Int
  deriving DecidableEq, Repr

/-- The `google.maps.Map` built by `getMap`. -/
structure GMap where
  map_holder : HTMLElement
  center : Coords
  zoom : Nat
  mapTypeId : String
  deriving DecidableEq, Repr

/-- A cluster icon style. -/
structure Style where
  url : String
  height : Nat
  width : Nat
  deriving DecidableEq, Repr

/-- The `MarkerClusterer` built by `getClusterer`; `repaints` counts calls of `repaint()`.
The map and the marker array it refers to are those of the state. -/
structure Clusterer where
  gridSize : Nat
  maxZoom : Nat
  clusterClass : String
  styles : List Style
  repaints : Nat
  deriving DecidableEq, Repr

/-- One `<div class='filter_dropdown_holder'>` appended to the filter holder: the label markup,
the option markup in order, and the category bound in the `change` handler. -/
structure DropdownHold where
  label : String
  options : List String
  category : String
  deriving DecidableEq, Repr

/-- The closure variables of `FilterMap` that the functions assign. -/
structure State where
  google_map : Option GMap
  clusterer : Option Clusterer
  markers : Option (List Marker)
  filter_options : FilterOptions
  filter_div : List DropdownHold
  deriving DecidableEq, Repr

/-- The arguments of `FilterMap`; `none` is `undefined`. -/
structure Args where
  map_holder : Option HTMLElement
  location_data : Option (List (Dict JSVal))
  filter_dropdown_holder : Option HTMLElement
  filter_fields : Option (List (String × String))
  center_coords : Option Coords
  default_zoom : Option Nat
  cluster_styles : Option (List Style)
  maptype_id : Option String

/-- The state set up by the `var` declarations of `FilterMap`. -/
def initialState : State :=
  { google_map := none, clusterer := none, markers := none, filter_options := [],
    filter_div := [] }

/-- The function `getMap`. -/
def getMap (google_map : Option GMap) (map_holder : HTMLElement) (center_coords : Coords)
    (default_zoom : Nat) (maptype_id : String) : GMap :=
  match google_map with
  | some m => m
  | none =>
      { map_holder := map_holder, center := center_coords, zoom := default_zoom,
        mapTypeId := maptype_id }

/-- The default `cluster_styles`. -/
def defaultStyles : List Style :=
  let base := "http://google-maps-utility-library-v3.googlecode.com/svn/trunk/markerclusterer/images/"
  [ { url := base ++ "m1.png", height := 53, width := 53 },
    { url := base ++ "m2.png", height := 56, width := 56 },
    { url := base ++ "m3.png", height := 66, width := 66 },
    { url := base ++ "m4.png", height := 78, width := 78 },
    { url := base ++ "m5.png", height := 90, width := 90 } ]

/-- The "0 results" style that `getClusterer` puts first. -/
def zeroStyle : Style :=
  { height := 0,
    url := "data:image/gif;base64,R0lGODlhAQABAIAAAAAAAP///yH5BAEAAAAALAAAAAABAAEAAAIBRAA7",
    width := 0 }

/-- The function `getClusterer`.  Its local `clusterer` shadows the outer one, so a new
clusterer is always built. -/
def getClusterer (cluster_styles : Option (List Style)) : Clusterer :=
  let cluster_styles :=
    match cluster_styles with
    | some styles => styles
    | none => defaultStyles
  let cluster_styles := zeroStyle :: cluster_styles
  { gridSize := 50, maxZoom := 10, clusterClass := "filter_cluster", styles := cluster_styles,
    repaints := 0 }

/-- Markup of one option: `"<option value='" + v + "'>" + v + "</option>"`. -/
def optionMarkup (v : String) : String :=
  "<option value='" ++ v ++ "'>" ++ v ++ "</option>"

/-- Markup of the first option of every dropdown. -/
def showAllMarkup : String :=
  "<option value='show_all'>Show All</option>"

/-- The keys `Object.keys(filter_options[category])` of a category of the index. -/
def optionKeys (filter_options : FilterOptions) (category : String) : List String :=
  ownKeys ((filter_options.lookup category).getD [])

/-- The body of the loop `for (category in filter_options)` of `drawFilters`. -/
def drawDropdown (filter_options : FilterOptions) (category : String) : DropdownHold :=
  let option_vals := jsSort (optionKeys filter_options category)
  { label := "<label>" ++ category ++ "</label>"
    options := showAllMarkup :: option_vals.map optionMarkup
    category := category }

/-- The function `drawFilters`: the children of the filter holder afterwards. -/
def drawFilters (filter_dropdown_holder : Option HTMLElement) (filter_options : FilterOptions)
    (filter_div : List DropdownHold) : List DropdownHold :=
  match filter_dropdown_holder with
  | none => filter_div
  | some _ => filter_div ++ (ownKeys filter_options).map (drawDropdown filter_options)

/-- What `init` returns. -/
inductive Ret where
  | retFalse
  | retUndefined
  deriving DecidableEq, Repr

/-- The function `init`. -/
def init (proto : String → Bool) (a : Args) (s : State) : Ret × State :=
  match a.map_holder, a.location_data with
  | some map_holder, some location_data =>
      let default_zoom := a.default_zoom.getD 2
      let maptype_id := a.maptype_id.getD "roadmap"
      let center_coords := a.center_coords.getD { lat := 52, lng := 6 }
      let google_map := getMap s.google_map map_holder center_coords default_zoom maptype_id
      let built := getMarkers proto a.filter_fields location_data s.filter_options
      let clusterer := getClusterer a.cluster_styles
      let filter_div := drawFilters a.filter_dropdown_holder built.2 s.filter_div
      (Ret.retUndefined,
        { google_map := some google_map, clusterer := some clusterer, markers := some built.1,
          filter_options := built.2, filter_div := filter_div })
  | _, _ => (Ret.retFalse, s)

/-- The loop of `filterDropdown` over the markers. -/
def filterLoop (category value : String) : List Marker → List Marker
  | [] => []
  | this_marker :: rest =>
      (if value == "show_all" || strictEqStr (objGet this_marker.filter_data category) value
        then this_marker.setVisible true
        else this_marker.setVisible false) :: filterLoop category value rest

/-- The function `filterDropdown`; `none` is the TypeError raised when `markers` or
`clusterer` is still `null`. -/
def filterDropdown (category value : String) (s : State) : Option State :=
  match s.markers, s.clusterer with
  | some markers, some clusterer =>
      some { s with
        markers := some (filterLoop category value markers)
        clusterer := some { clusterer with repaints := clusterer.repaints + 1 } }
  | _, _ => none

/-! ## The calculator -/

theorem countShown_eq (ms : List Marker) (acc : Nat) :
    countShown ms acc = acc + ms.countP (fun m => m.visible) := by
  induction ms generalizing acc with
  | nil => simp [countShown]
  | cons m rest ih =>
      simp only [countShown, ih, List.countP_cons]
      cases m.visible <;> simp
      omega

theorem digitLoop_eq (dv : Nat) : ∀ index, digitLoop dv index = index + (Nat.digits 10 dv).length := by
  induction dv using Nat.strong_induction_on with
  | _ dv ih =>
      intro index
      rw [digitLoop]
      by_cases h : dv = 0
      · simp [h]
      · rw [dif_neg h, ih (dv / 10) (Nat.div_lt_self (Nat.pos_of_ne_zero h) (by decide))]
        rw [Nat.digits_def' (by decide) (Nat.pos_of_ne_zero h)]
        simp only [List.length_cons]
        omega

/-- C6: the calculator's text is the number of visible markers of the cluster, or the empty
text when that number is zero; the index is 0 exactly when no marker is visible; and the style
list handed to the clusterer starts with the zero-size style. -/
theorem calculator_text_and_zero_index (markers : List Marker) (numStyles : Nat)
    (cluster_styles : Option (List Style)) :
    (calculator markers numStyles).text
      = (if markers.countP (fun m => m.visible) = 0 then CalcText.empty
         else CalcText.num (markers.countP (fun m => m.visible))) ∧
    ((calculator markers numStyles).index = 0 ↔ markers.countP (fun m => m.visible) = 0) ∧
    (getClusterer cluster_styles).styles.head? = some zeroStyle ∧
    zeroStyle.height = 0 ∧ zeroStyle.width = 0 := by
  have hc : countShown markers 0 = markers.countP (fun m => m.visible) := by
    rw [countShown_eq]; simp
  refine ⟨?_, ?_, ?_, rfl, rfl⟩
  · simp only [calculator, hc]
    by_cases h : markers.countP (fun m => m.visible) = 0
    · simp [h]
    · rw [if_pos (Nat.pos_of_ne_zero h), if_neg h]
  · simp only [calculator, hc]
    by_cases h : markers.countP (fun m => m.visible) = 0
    · simp [h]
    · rw [if_pos (Nat.pos_of_ne_zero h)]
      simp [h]
  · cases cluster_styles <;> simp [getClusterer]

/-- C7, as stated, fails: one visible marker and `numStyles = 0` give index 1, which is not
between 2 and `numStyles + 1`. -/
theorem calculator_index_below_two :
    List.countP (fun m => m.visible) [(newMarker [] []).setVisible true] = 1 ∧
    (calculator [(newMarker [] []).setVisible true] 0).index = 1 ∧
    ¬ (2 ≤ (calculator [(newMarker [] []).setVisible true] 0).index) := by
  have h : (calculator [(newMarker [] []).setVisible true] 0).index = 1 := by
    simp [calculator, countShown, Marker.setVisible]
  refine ⟨by simp [Marker.setVisible], h, ?_⟩
  rw [h]; decide

/-- C7 (amended): for a cluster with a positive number `s` of visible markers the digit loop
ends and the index is `min d numStyles + 1` with `d` the number of decimal digits of `s`; the
index is at most `numStyles + 1`, at least `min 1 numStyles + 1` (so at least 2 when
`numStyles ≥ 1`, and 1 when `numStyles = 0`), and non-decreasing in `s`. -/
theorem calculator_index_digits (markers : List Marker) (numStyles : Nat)
    (hpos : 0 < markers.countP (fun m => m.visible)) :
    (calculator markers numStyles).index
      = min (Nat.digits 10 (markers.countP (fun m => m.visible))).length numStyles + 1 ∧
    min 1 numStyles + 1 ≤ (calculator markers numStyles).index ∧
    (calculator markers numStyles).index ≤ numStyles + 1 ∧
    (∀ markers2 : List Marker,
      markers.countP (fun m => m.visible) ≤ markers2.countP (fun m => m.visible) →
      (calculator markers numStyles).index ≤ (calculator markers2 numStyles).index) := by
  have key : ∀ ms : List Marker, 0 < ms.countP (fun m => m.visible) →
      (calculator ms numStyles).index
        = min (Nat.digits 10 (ms.countP (fun m => m.visible))).length numStyles + 1 := by
    intro ms h
    have hc : countShown ms 0 = ms.countP (fun m => m.visible) := by
      rw [countShown_eq]; simp
    simp only [calculator, hc]
    rw [if_pos h, digitLoop_eq]
    simp
  have hd : ∀ n : Nat, 0 < n → 1 ≤ (Nat.digits 10 n).length := by
    intro n hn
    rw [Nat.digits_def' (by decide) hn]
    simp
  refine ⟨key markers hpos, ?_, ?_, ?_⟩
  · rw [key markers hpos]
    have := hd _ hpos
    omega
  · rw [key markers hpos]
    omega
  · intro markers2 hle
    rw [key markers hpos, key markers2 (lt_of_lt_of_le hpos hle)]
    have := Nat.le_digits_len_le 10 _ _ hle
    omega

/-- C7 (amended), at a cluster of one visible marker with two styles. -/
theorem calculator_index_digits_witness :
    0 < List.countP (fun m => m.visible) [(newMarker [] []).setVisible true] ∧
    (calculator [(newMarker [] []).setVisible true] 2).index
      = min (Nat.digits 10
          (List.countP (fun m => m.visible) [(newMarker [] []).setVisible true])).length 2
        + 1 ∧
    min 1 2 + 1 ≤ (calculator [(newMarker [] []).setVisible true] 2).index ∧
    (calculator [(newMarker [] []).setVisible true] 2).index ≤ 2 + 1 ∧
    (∀ markers2 : List Marker,
      List.countP (fun m => m.visible) [(newMarker [] []).setVisible true]
        ≤ markers2.countP (fun m => m.visible) →
      (calculator [(newMarker [] []).setVisible true] 2).index
        ≤ (calculator markers2 2).index) :=
  ⟨by simp [Marker.setVisible],
    calculator_index_digits [(newMarker [] []).setVisible true] 2
      (by simp [Marker.setVisible])⟩

/-! ## The visibility filter -/

theorem filterLoop_length (category value : String) (ms : List Marker) :
    (filterLoop category value ms).length = ms.length := by
  induction ms with
  | nil => rfl
  | cons m rest ih => simp [filterLoop, ih]

theorem filterLoop_eq_map (category value : String) (ms : List Marker) :
    filterLoop category value ms
      = ms.map (fun m => m.setVisible
          (value == "show_all" || strictEqStr (objGet m.filter_data category) value)) := by
  induction ms with
  | nil => rfl
  | cons m rest ih =>
      simp only [filterLoop, ih, List.map_cons]
      cases (value == "show_all" || strictEqStr (objGet m.filter_data category) value) <;> simp

theorem strictEqStr_iff (v : JSVal) (s : String) :
    strictEqStr v s = true ↔ v = JSVal.str s := by
  cases v <;> simp [strictEqStr]

theorem filterDropdown_eq (category value : String) (g : Option GMap) (c : Clusterer)
    (ms : List Marker) (fo : FilterOptions) (fd : List DropdownHold) :
    filterDropdown category value
        { google_map := g, clusterer := some c, markers := some ms, filter_options := fo,
          filter_div := fd }
      = some { google_map := g, clusterer := some { c with repaints := c.repaints + 1 },
               markers := some (filterLoop category value ms), filter_options := fo,
               filter_div := fd } := rfl

/-- C3: whatever the markers, the category and the visibility flags before the call,
`filterDropdown(category, "show_all")` returns and leaves every marker of the list visible. -/
theorem filterDropdown_show_all (category : String) (g : Option GMap) (c : Clusterer)
    (ms : List Marker) (fo : FilterOptions) (fd : List DropdownHold) :
    ∃ s ms2,
      filterDropdown category "show_all"
          { google_map := g, clusterer := some c, markers := some ms, filter_options := fo,
            filter_div := fd } = some s ∧
      s.markers = some ms2 ∧ ms2.length = ms.length ∧
      ms2.all (fun m => m.visible) = true := by
  refine ⟨_, _, filterDropdown_eq category "show_all" g c ms fo fd, rfl,
    filterLoop_length _ _ _, ?_⟩
  rw [filterLoop_eq_map]
  simp [Marker.setVisible]

/-- C2 (amended): for a value other than the reserved `"show_all"`, after
`filterDropdown(category, value)` the list has as many markers as before and a marker is
visible if and only if its stored `filter_data[category]` is that value. -/
theorem filterDropdown_value (category value : String) (hv : value ≠ "show_all")
    (g : Option GMap) (c : Clusterer) (ms : List Marker) (fo : FilterOptions)
    (fd : List DropdownHold) :
    ∃ s ms2,
      filterDropdown category value
          { google_map := g, clusterer := some c, markers := some ms, filter_options := fo,
            filter_div := fd } = some s ∧
      s.markers = some ms2 ∧ ms2.length = ms.length ∧
      ms2.map (fun m => m.filter_data) = ms.map (fun m => m.filter_data) ∧
      (∀ m ∈ ms2, (m.visible = true ↔ objGet m.filter_data category = JSVal.str value)) := by
  refine ⟨_, _, filterDropdown_eq category value g c ms fo fd, rfl,
    filterLoop_length _ _ _, ?_, ?_⟩
  · rw [filterLoop_eq_map]
    simp [Marker.setVisible, Function.comp_def]
  · intro m hm
    rw [filterLoop_eq_map] at hm
    obtain ⟨m0, -, rfl⟩ := List.mem_map.1 hm
    simp [Marker.setVisible, hv, strictEqStr_iff]

/-- C9: a selection after another leaves the markers that the later selection alone leaves;
the result does not depend on the visibility flags before the call; and a selection applied
twice leaves what it leaves applied once. -/
theorem filterDropdown_latest_wins (c1 v1 c2 v2 : String) (g : Option GMap) (c : Clusterer)
    (ms : List Marker) (fo : FilterOptions) (fd : List DropdownHold) (flags : Marker → Bool) :
    ∃ s1 s12 s2 s22 s3,
      filterDropdown c1 v1
          { google_map := g, clusterer := some c, markers := some ms, filter_options := fo,
            filter_div := fd } = some s1 ∧
      filterDropdown c2 v2 s1 = some s12 ∧
      filterDropdown c2 v2
          { google_map := g, clusterer := some c, markers := some ms, filter_options := fo,
            filter_div := fd } = some s2 ∧
      s12.markers = s2.markers ∧
      filterDropdown c2 v2 s2 = some s22 ∧
      s22.markers = s2.markers ∧
      filterDropdown c2 v2
          { google_map := g, clusterer := some c,
            markers := some (ms.map (fun m => m.setVisible (flags m))), filter_options := fo,
            filter_div := fd } = some s3 ∧
      s3.markers = s2.markers := by
  refine ⟨_, _, _, _, _, filterDropdown_eq c1 v1 g c ms fo fd, filterDropdown_eq _ _ _ _ _ _ _,
    filterDropdown_eq c2 v2 g c ms fo fd, ?_, filterDropdown_eq _ _ _ _ _ _ _, ?_,
    filterDropdown_eq _ _ _ _ _ _ _, ?_⟩
  all_goals
    simp only [filterLoop_eq_map, List.map_map, Option.some.injEq]
    apply List.map_congr_left
    intro m _
    simp [Marker.setVisible]

/-- C10: `filterDropdown` returns and leaves the number and order of the markers, each
marker's position, title and `filter_data`, and the index `filter_options` as they were: the
markers differ from the earlier ones in the `visible` flag at most, and the map and the drawn
dropdowns are the same too. -/
theorem filterDropdown_frame (category value : String) (g : Option GMap) (c : Clusterer)
    (ms : List Marker) (fo : FilterOptions) (fd : List DropdownHold) :
    ∃ s ms2,
      filterDropdown category value
          { google_map := g, clusterer := some c, markers := some ms, filter_options := fo,
            filter_div := fd } = some s ∧
      s.markers = some ms2 ∧ s.filter_options = fo ∧
      ms2.length = ms.length ∧
      ms2.map (fun m => m.position) = ms.map (fun m => m.position) ∧
      ms2.map (fun m => m.title) = ms.map (fun m => m.title) ∧
      ms2.map (fun m => m.filter_data) = ms.map (fun m => m.filter_data) ∧
      ms2.map (fun m => m.setVisible true) = ms.map (fun m => m.setVisible true) ∧
      s.google_map = g ∧ s.filter_div = fd := by
  refine ⟨_, _, filterDropdown_eq category value g c ms fo fd, rfl, rfl,
    filterLoop_length _ _ _, ?_, ?_, ?_, ?_, rfl, rfl⟩
  all_goals
    rw [filterLoop_eq_map]
    simp [Marker.setVisible, Function.comp_def]

/-! ## Building the markers -/

theorem lookup_dictSet_self {α : Type} (d : Dict α) (k : String) (v : α) :
    (dictSet d k v).lookup k = some v := by
  induction d with
  | nil => simp [dictSet, List.lookup]
  | cons p rest ih =>
      obtain ⟨k1, v1⟩ := p
      simp only [dictSet]
      by_cases e : k1 = k
      · simp [e, List.lookup]
      · rw [if_neg e]
        have : (k == k1) = false := by simpa using fun h => e h.symm
        simp [List.lookup, this, ih]

theorem lookup_dictSet_ne {α : Type} (d : Dict α) (k k2 : String) (v : α) (h : k2 ≠ k) :
    (dictSet d k v).lookup k2 = d.lookup k2 := by
  induction d with
  | nil =>
      have : (k2 == k) = false := by simpa using h
      simp [dictSet, List.lookup, this]
  | cons p rest ih =>
      obtain ⟨k1, v1⟩ := p
      simp only [dictSet]
      by_cases e : k1 = k
      · subst e
        have : (k2 == k1) = false := by simpa using h
        simp [List.lookup, this]
      · rw [if_neg e]
        simp only [List.lookup, ih]

theorem mem_keys_dictSet {α : Type} (d : Dict α) (k k2 : String) (v : α) :
    k2 ∈ (dictSet d k v).map Prod.fst ↔ k2 = k ∨ k2 ∈ d.map Prod.fst := by
  induction d with
  | nil => simp [dictSet]
  | cons p rest ih =>
      obtain ⟨k1, v1⟩ := p
      simp only [dictSet]
      by_cases e : k1 = k
      · subst e
        simp
      · rw [if_neg e]
        simp only [List.map_cons, List.mem_cons, ih]
        tauto

theorem lookup_isNone_iff {α : Type} (d : Dict α) (k : String) :
    (d.lookup k).isNone = true ↔ k ∉ d.map Prod.fst := by
  induction d with
  | nil => simp [List.lookup]
  | cons p rest ih =>
      obtain ⟨k1, v1⟩ := p
      by_cases e : k = k1
      · subst e
        simp [List.lookup]
      · have : (k == k1) = false := by simpa using e
        simp only [List.lookup, this, ih, List.map_cons, List.mem_cons, not_or]
        exact ⟨fun h => ⟨e, h⟩, fun h => h.2⟩

theorem objGet_dictSet_self (d : Dict JSVal) (k : String) (v : JSVal) :
    objGet (dictSet d k v) k = v := by
  simp [objGet, lookup_dictSet_self]

theorem recordOption_lookup_ne (proto : String → Bool) (fo : FilterOptions)
    (c key c2 : String) (h : c2 ≠ c) :
    (recordOption proto fo c key).lookup c2 = fo.lookup c2 := by
  unfold recordOption
  have h1 : ∀ fo1 : FilterOptions, fo1.lookup c2 = fo.lookup c2 →
      (if c = "length" then fo1
        else match fo1.lookup c with
          | some filter_category =>
              if arrUndefined proto filter_category key then
                dictSet fo1 c (dictSet filter_category key true)
              else fo1
          | none => fo1).lookup c2 = fo.lookup c2 := by
    intro fo1 hfo1
    split
    · exact hfo1
    · split
      · split
        · rw [lookup_dictSet_ne _ _ _ _ h, hfo1]
        · exact hfo1
      · exact hfo1
  apply h1
  split
  · exact lookup_dictSet_ne _ _ _ _ h
  · rfl

theorem recordOption_lookup_self (proto : String → Bool) (fo : FilterOptions)
    (c key : String) (hc : builtinName proto c = false) :
    (recordOption proto fo c key).lookup c
      = some (if arrUndefined proto ((fo.lookup c).getD []) key
              then dictSet ((fo.lookup c).getD []) key true
              else (fo.lookup c).getD []) := by
  have hlen : c ≠ "length" := by
    intro e
    simp [builtinName, e] at hc
  unfold recordOption
  cases hl : fo.lookup c with
  | none =>
      simp only [arrUndefined, hc, hl, Option.isNone_none, Bool.not_false, Bool.and_self,
        if_true, if_neg hlen, lookup_dictSet_self, Option.getD_none]
      split <;> simp [lookup_dictSet_self]
  | some inner =>
      simp only [arrUndefined, hc, hl, Option.isNone_some, Bool.not_false, Bool.and_false,
        if_neg hlen, Option.getD_some, Bool.false_eq_true, if_false]
      split <;> simp [lookup_dictSet_self, hl]

theorem ownKeys_perm {α : Type} (a : Dict α) : (ownKeys a).Perm (a.map Prod.fst) := by
  unfold ownKeys
  exact ((List.perm_insertionSort _ _).append_right _).trans (List.filter_append_perm _ _)

theorem mem_ownKeys {α : Type} (a : Dict α) (k : String) :
    k ∈ ownKeys a ↔ k ∈ a.map Prod.fst :=
  (ownKeys_perm a).mem_iff

theorem mem_optionKeys_recordOption_self (proto : String → Bool) (fo : FilterOptions)
    (c key k : String) (hc : builtinName proto c = false) :
    k ∈ optionKeys (recordOption proto fo c key) c
      ↔ k ∈ optionKeys fo c ∨ (k = key ∧ builtinName proto key = false) := by
  simp only [optionKeys, mem_ownKeys, recordOption_lookup_self proto fo c key hc,
    Option.getD_some]
  by_cases hu : arrUndefined proto ((fo.lookup c).getD []) key = true
  · rw [if_pos hu, mem_keys_dictSet]
    simp only [arrUndefined, Bool.and_eq_true, Bool.not_eq_true'] at hu
    constructor
    · rintro (h | h)
      · exact Or.inr ⟨h, hu.1⟩
      · exact Or.inl h
    · rintro (h | h)
      · exact Or.inr h
      · exact Or.inl h.1
  · rw [if_neg hu]
    constructor
    · exact Or.inl
    · rintro (h | ⟨h, hb⟩)
      · exact h
      · subst h
        by_contra hk
        apply hu
        simp only [arrUndefined, hb, Bool.not_false, Bool.true_and]
        exact (lookup_isNone_iff _ _).2 hk

theorem optionKeys_recordOption_ne (proto : String → Bool) (fo : FilterOptions)
    (c key c2 : String) (h : c2 ≠ c) :
    optionKeys (recordOption proto fo c key) c2 = optionKeys fo c2 := by
  simp only [optionKeys, recordOption_lookup_ne proto fo c key c2 h]

theorem mem_optionKeys_categoryLoop (proto : String → Bool) (location : Dict JSVal)
    (c k : String) (hc : builtinName proto c = false) (fields : List (String × String)) :
    ∀ (filter_data : Dict JSVal) (fo : FilterOptions),
      k ∈ optionKeys (categoryLoop proto location fields filter_data fo).2 c
        ↔ k ∈ optionKeys fo c ∨
          (builtinName proto k = false ∧
            ∃ field, (c, field) ∈ fields ∧ toKey (objGet location field) = k) := by
  induction fields with
  | nil => intro fd fo; simp [categoryLoop]
  | cons cf rest ih =>
      intro fd fo
      obtain ⟨category, field⟩ := cf
      simp only [categoryLoop, ih, objGet_dictSet_self]
      by_cases e : category = c
      · subst e
        rw [mem_optionKeys_recordOption_self proto fo category _ k hc]
        simp only [List.mem_cons, Prod.mk.injEq, true_and]
        constructor
        · rintro ((h | ⟨h, hb⟩) | ⟨hb, f, hf, hk⟩)
          · exact Or.inl h
          · exact Or.inr ⟨h ▸ hb, field, Or.inl rfl, h.symm⟩
          · exact Or.inr ⟨hb, f, Or.inr hf, hk⟩
        · rintro (h | ⟨hb, f, hf | hf, hk⟩)
          · exact Or.inl (Or.inl h)
          · subst hf
            exact Or.inl (Or.inr ⟨hk.symm, hk ▸ hb⟩)
          · exact Or.inr ⟨hb, f, hf, hk⟩
      · rw [optionKeys_recordOption_ne proto fo category _ c (fun h => e h.symm)]
        simp only [List.mem_cons, Prod.mk.injEq]
        constructor
        · rintro (h | ⟨hb, f, hf, hk⟩)
          · exact Or.inl h
          · exact Or.inr ⟨hb, f, Or.inr hf, hk⟩
        · rintro (h | ⟨hb, f, hf | hf, hk⟩)
          · exact Or.inl h
          · exact absurd hf.1.symm e
          · exact Or.inr ⟨hb, f, hf, hk⟩

theorem mem_optionKeys_markerLoop (proto : String → Bool) (fields : List (String × String))
    (c k : String) (hc : builtinName proto c = false) (location_data : List (Dict JSVal)) :
    ∀ (filter_data : Dict JSVal) (fo : FilterOptions) (markers : List Marker),
      k ∈ optionKeys (markerLoop proto (some fields) location_data filter_data fo markers).2 c
        ↔ k ∈ optionKeys fo c ∨
          (builtinName proto k = false ∧
            ∃ location ∈ location_data, ∃ field,
              (c, field) ∈ fields ∧ toKey (objGet location field) = k) := by
  induction location_data with
  | nil => intro fd fo ms; simp [markerLoop]
  | cons location rest ih =>
      intro fd fo ms
      simp only [markerLoop, ih, mem_optionKeys_categoryLoop proto location c k hc fields,
        List.mem_cons, exists_eq_or_imp]
      constructor
      · rintro ((h | ⟨hb, h⟩) | ⟨hb, h⟩)
        · exact Or.inl h
        · exact Or.inr ⟨hb, Or.inl h⟩
        · exact Or.inr ⟨hb, Or.inr h⟩
      · rintro (h | ⟨hb, h | h⟩)
        · exact Or.inl (Or.inl h)
        · exact Or.inl (Or.inr ⟨hb, h⟩)
        · exact Or.inr ⟨hb, h⟩

/-- The keys recorded for a label that is no built-in array member: those recorded before, and
the keys of the values the configured field takes in the records, except the keys that name a
built-in array member. -/
theorem mem_optionKeys_getMarkers (proto : String → Bool) (fields : List (String × String))
    (location_data : List (Dict JSVal)) (fo : FilterOptions) (c k : String)
    (hc : builtinName proto c = false) :
    k ∈ optionKeys (getMarkers proto (some fields) location_data fo).2 c
      ↔ k ∈ optionKeys fo c ∨
        (builtinName proto k = false ∧
          ∃ location ∈ location_data, ∃ field,
            (c, field) ∈ fields ∧ toKey (objGet location field) = k) := by
  unfold getMarkers
  exact mem_optionKeys_markerLoop proto fields c k hc location_data [] fo []

/-! ## Categories of the index and its invariants -/

/-- C1 at the failing input: in every host engine, for the single record whose `Country` is
`"length"` and the configuration `{"Country": "Country"}`, the marker stores the value
`"length"` while no key at all is recorded under `filter_options["Country"]`, because
`[]["length"]` is the array length and not `undefined`. -/
theorem getMarkers_drops_length (proto : String → Bool) :
    (getMarkers proto (some [("Country", "Country")])
        [[("Latitude", JSVal.str "0"), ("Longitude", JSVal.str "0"),
          ("Country", JSVal.str "length")]] []).1.map
        (fun m => objGet m.filter_data "Country") = [JSVal.str "length"] ∧
    optionKeys
        (getMarkers proto (some [("Country", "Country")])
          [[("Latitude", JSVal.str "0"), ("Longitude", JSVal.str "0"),
            ("Country", JSVal.str "length")]] []).2 "Country" = [] := by
  constructor
  · simp [getMarkers, markerLoop, categoryLoop, newMarker, dictSet, objGet, List.lookup]
  · cases h : proto "Country" <;>
      simp [getMarkers, markerLoop, categoryLoop, recordOption, arrUndefined, builtinName,
        dictSet, objGet, toKey, List.lookup, optionKeys, ownKeys, h]

/-- C2, as stated, fails: built from two records whose `Country` is `"show_all"` and
`"France"`, the dropdown offers the value `"show_all"`, and after
`filterDropdown("Country", "show_all")` the marker whose stored value is `"France"` is
visible. -/
theorem filterDropdown_show_all_collision :
    optionKeys
        (getMarkers es5Proto (some [("Country", "Country")])
          [[("Country", JSVal.str "show_all")], [("Country", JSVal.str "France")]] []).2
        "Country" = ["show_all", "France"] ∧
    (filterDropdown "Country" "show_all"
        { google_map := none, clusterer := some (getClusterer none),
          markers := some (getMarkers es5Proto (some [("Country", "Country")])
            [[("Country", JSVal.str "show_all")], [("Country", JSVal.str "France")]] []).1,
          filter_options := [], filter_div := [] }).map
        (fun s => (s.markers.getD []).map
          (fun m => (objGet m.filter_data "Country", m.visible)))
      = some [(JSVal.str "show_all", true), (JSVal.str "France", true)] ∧
    JSVal.str "France" ≠ JSVal.str "show_all" := by
  refine ⟨?_, ?_, by decide⟩
  · simp [getMarkers, markerLoop, categoryLoop, recordOption, arrUndefined, builtinName,
      es5Proto, dictSet, objGet, toKey, List.lookup, optionKeys, ownKeys, arrayIndex,
      parseDigits, digitOf]
  · simp [getMarkers, markerLoop, categoryLoop, newMarker, dictSet, objGet, List.lookup,
      filterDropdown, filterLoop, Marker.setVisible, strictEqStr]

/-- C2 (amended) at the value `"France"` and two markers. -/
theorem filterDropdown_value_witness :
    "France" ≠ "show_all" ∧
    ∃ s ms2,
      filterDropdown "Country" "France"
          { google_map := none, clusterer := some (getClusterer none),
            markers := some [newMarker [] [("Country", JSVal.str "France")],
                             newMarker [] [("Country", JSVal.str "Peru")]],
            filter_options := [], filter_div := [] } = some s ∧
      s.markers = some ms2 ∧ ms2.length = 2 ∧
      ms2.map (fun m => m.filter_data)
        = [[("Country", JSVal.str "France")], [("Country", JSVal.str "Peru")]] ∧
      (∀ m ∈ ms2,
        (m.visible = true ↔ objGet m.filter_data "Country" = JSVal.str "France")) :=
  ⟨by decide,
    filterDropdown_value "Country" "France" (by decide) none (getClusterer none)
      [newMarker [] [("Country", JSVal.str "France")],
       newMarker [] [("Country", JSVal.str "Peru")]] [] []⟩

/-! ## Initialisation -/

/-- C5: when `map_holder` or `location_data` is `undefined`, `init` returns `false` and leaves
the state as the declarations set it up: no map, no markers, no clusterer, an empty index and
no dropdown; when both are given it returns without a value, having built the map on the
holder, the markers and the index by `getMarkers`, the clusterer, and the dropdowns by
`drawFilters`. -/
theorem init_guard (proto : String → Bool) (a : Args) :
    ((a.map_holder = none ∨ a.location_data = none) →
      init proto a initialState = (Ret.retFalse, initialState) ∧
      (init proto a initialState).2.google_map = none ∧
      (init proto a initialState).2.markers = none ∧
      (init proto a initialState).2.clusterer = none ∧
      (init proto a initialState).2.filter_options = [] ∧
      (init proto a initialState).2.filter_div = []) ∧
    (∀ (map_holder : HTMLElement) (location_data : List (Dict JSVal)),
      a.map_holder = some map_holder → a.location_data = some location_data →
      init proto a initialState
        = (Ret.retUndefined,
            { google_map := some
                { map_holder := map_holder,
                  center := a.center_coords.getD { lat := 52, lng := 6 },
                  zoom := a.default_zoom.getD 2,
                  mapTypeId := a.maptype_id.getD "roadmap" },
              clusterer := some (getClusterer a.cluster_styles),
              markers := some (getMarkers proto a.filter_fields location_data []).1,
              filter_options := (getMarkers proto a.filter_fields location_data []).2,
              filter_div := drawFilters a.filter_dropdown_holder
                (getMarkers proto a.filter_fields location_data []).2 [] })) := by
  constructor
  · intro h
    have : init proto a initialState = (Ret.retFalse, initialState) := by
      unfold init
      rcases h with h | h
      · simp [h]
      · rw [h]
        cases a.map_holder <;> rfl
    rw [this]
    exact ⟨rfl, rfl, rfl, rfl, rfl, rfl⟩
  · intro map_holder location_data h1 h2
    unfold init
    rw [h1, h2]
    rfl

end FilterMap
